import Mathlib

/-!
Shallow embedding of the query/view-state engine of the data-upload-and-
visualization dashboard: the DataTable query state model and its mutation
handlers, the debounced synchronization loop, the DatasetView fetch/display
logic, the ChartContainer configuration model, the axios gateway
interceptors, and the AuthContext login/register flows.
-/

namespace DataViz

/-- A structured filter, as entered in the DataTable filter form
(`{column, operator, value}` in DataTable.addFilter). -/
structure Filter where
  column : String
  operator : String
  value : String
deriving DecidableEq, Repr

/-- The Query state held by `useState` in the DataTable component:
`{page, limit, sort_by, sort_order, search, filters}`. -/
structure Query where
  page : Int
  limit : Int
  sort_by : String
  sort_order : String
  search : String
  filters : List Filter
deriving DecidableEq, Repr

/-- The initial query of DataTable's `useState` call:
`{page: 1, limit: 10, sort_by: '', sort_order: 'asc', search: '', filters: []}`. -/
def initialQuery : Query :=
  { page := 1, limit := 10, sort_by := "", sort_order := "asc",
    search := "", filters := [] }

/-- The query literal DatasetView.loadAllData passes to its first
`loadData` call (Dashboard.jsx source, DatasetView section). -/
def datasetViewFirstQuery : Query :=
  { page := 1, limit := 10, sort_by := "", sort_order := "asc",
    search := "", filters := [] }

/-- DataTable.handleSort: sets `sort_by` to the clicked column, toggles
`sort_order` to 'desc' exactly when the previous sort was the same column
ascending, and resets `page` to 1. -/
def handleSort (column : String) (prev : Query) : Query :=
  { prev with
    sort_by := column,
    sort_order := if prev.sort_by = column ∧ prev.sort_order = "asc"
                  then "desc" else "asc",
    page := 1 }

/-- DataTable.handleSearch: replaces `search`, resets `page` to 1. -/
def handleSearch (search : String) (prev : Query) : Query :=
  { prev with search := search, page := 1 }

/-- DataTable.handlePageChange: sets `page`, touching nothing else. -/
def handlePageChange (page : Int) (prev : Query) : Query :=
  { prev with page := page }

/-- DataTable.handleLimitChange: sets `limit`, resets `page` to 1. -/
def handleLimitChange (limit : Int) (prev : Query) : Query :=
  { prev with limit := limit, page := 1 }

/-- DataTable.removeFilter: keeps the filters whose position differs from
`index` (the JS `filters.filter((_, i) => i !== index)`), resets `page` to 1. -/
def removeFilter (index : Nat) (prev : Query) : Query :=
  { prev with
    filters := ((prev.filters.enum).filter (fun p => p.1 ≠ index)).map (fun p => p.2),
    page := 1 }

/-- The component-local state of DataTable that addFilter touches: the query
plus the pending filter-entry draft fields (`filterColumn`, `filterOperator`,
`filterValue`). -/
structure TableState where
  query : Query
  filterColumn : String
  filterOperator : String
  filterValue : String
deriving DecidableEq, Repr

/-- DataTable.addFilter: returns unchanged when the draft column or value is
empty (JS `if (!filterColumn || !filterValue) return`); otherwise appends the
draft filter, resets `page` to 1, and clears the draft column and value. -/
def addFilter (s : TableState) : TableState :=
  if s.filterColumn = "" ∨ s.filterValue = "" then s
  else
    { s with
      query := { s.query with
                 filters := s.query.filters ++
                   [{ column := s.filterColumn, operator := s.filterOperator,
                      value := s.filterValue }],
                 page := 1 },
      filterColumn := "",
      filterValue := "" }

end DataViz

namespace DataViz

/-- C1: every Query mutation except handlePageChange leaves page = 1;
handlePageChange leaves page = n. Stated for an arbitrary state, hence for
the result of any mutation sequence. -/
theorem page_reset_invariant (q : Query) (c s : String) (l : Int) (i : Nat)
    (n : Int) (st : TableState)
    (hc : st.filterColumn ≠ "") (hv : st.filterValue ≠ "") :
    (handleSort c q).page = 1 ∧
    (handleSearch s q).page = 1 ∧
    (handleLimitChange l q).page = 1 ∧
    (removeFilter i q).page = 1 ∧
    (addFilter st).query.page = 1 ∧
    (handlePageChange n q).page = n := by
  refine ⟨rfl, rfl, rfl, rfl, ?_, rfl⟩
  unfold addFilter
  rw [if_neg]
  rintro (h | h)
  · exact hc h
  · exact hv h

/-- Witness for C1 at a concrete state with a non-empty filter draft. -/
theorem page_reset_invariant_witness :
    (handleSort "a" initialQuery).page = 1 ∧
    (handleSearch "x" initialQuery).page = 1 ∧
    (handleLimitChange 25 initialQuery).page = 1 ∧
    (removeFilter 0 initialQuery).page = 1 ∧
    (addFilter ⟨initialQuery, "age", "gt", "30"⟩).query.page = 1 ∧
    (handlePageChange 7 initialQuery).page = 7 :=
  page_reset_invariant initialQuery "a" "x" 25 0 7
    ⟨initialQuery, "age", "gt", "30"⟩ (by decide) (by decide)

/-- C4: handleSort toggles sort_order when sorting the same column again,
sets asc on a new column, always resets page to 1; three successive sorts on
one column from an empty sort_by give asc, desc, asc. -/
theorem handleSort_spec (q : Query) (c : String) :
    ((q.sort_by = c ∧ q.sort_order = "asc") → (handleSort c q).sort_order = "desc") ∧
    ((q.sort_by = c ∧ q.sort_order = "desc") → (handleSort c q).sort_order = "asc") ∧
    (q.sort_by ≠ c →
      (handleSort c q).sort_by = c ∧ (handleSort c q).sort_order = "asc") ∧
    (handleSort c q).sort_by = c ∧
    (handleSort c q).page = 1 ∧
    ((q.sort_by = "" ∧ c ≠ "") →
      (handleSort c q).sort_order = "asc" ∧
      (handleSort c (handleSort c q)).sort_order = "desc" ∧
      (handleSort c (handleSort c (handleSort c q))).sort_order = "asc") := by
  refine ⟨?_, ?_, ?_, rfl, rfl, ?_⟩
  · rintro ⟨h1, h2⟩
    simp [handleSort, h1, h2]
  · rintro ⟨h1, h2⟩
    simp [handleSort, h1, h2]
  · intro h
    exact ⟨rfl, by simp [handleSort, h]⟩
  · rintro ⟨h1, h2⟩
    have hne : q.sort_by ≠ c := fun hc => h2 (hc.symm.trans h1)
    have e1 : (handleSort c q).sort_order = "asc" := by simp [handleSort, hne]
    have e2 : (handleSort c (handleSort c q)).sort_order = "desc" := by
      simp [handleSort, hne]
    have e3 : (handleSort c (handleSort c (handleSort c q))).sort_order = "asc" := by
      simp [handleSort, hne]
    exact ⟨e1, e2, e3⟩

/-- Witness for C4 on the concrete scenario of the spec: three sorts on
"name" starting from the initial query give asc, desc, asc. -/
theorem handleSort_spec_witness :
    (initialQuery.sort_by = "" ∧ "name" ≠ "") ∧
    (initialQuery.sort_by ≠ "name") ∧
    (handleSort "name" initialQuery).sort_by = "name" ∧
    (handleSort "name" initialQuery).sort_order = "asc" ∧
    (handleSort "name" (handleSort "name" initialQuery)).sort_order = "desc" ∧
    (handleSort "name" (handleSort "name" (handleSort "name" initialQuery))).sort_order = "asc" :=
  ⟨by decide, by decide,
   ((handleSort_spec initialQuery "name").2.2.1 (by decide)).1,
   (handleSort_spec initialQuery "name").2.2.2.2.2 (by decide)⟩

/-- C5: addFilter with an empty draft column or value is a no-op on the whole
state (so on the filter sequence and on page); with both non-empty it appends
the draft filter, resets page to 1, and clears the draft column and value. -/
theorem addFilter_spec (s : TableState) :
    ((s.filterColumn = "" ∨ s.filterValue = "") → addFilter s = s) ∧
    ((s.filterColumn ≠ "" ∧ s.filterValue ≠ "") →
      (addFilter s).query.filters = s.query.filters ++
        [{ column := s.filterColumn, operator := s.filterOperator,
           value := s.filterValue }] ∧
      (addFilter s).query.page = 1 ∧
      (addFilter s).filterColumn = "" ∧
      (addFilter s).filterValue = "" ∧
      (addFilter s).query.sort_by = s.query.sort_by ∧
      (addFilter s).query.sort_order = s.query.sort_order ∧
      (addFilter s).query.search = s.query.search ∧
      (addFilter s).query.limit = s.query.limit) := by
  constructor
  · intro h
    simp [addFilter, h]
  · rintro ⟨h1, h2⟩
    have hn : ¬ (s.filterColumn = "" ∨ s.filterValue = "") := by
      rintro (h | h)
      · exact h1 h
      · exact h2 h
    simp [addFilter, hn]

/-- Witness for C5 at concrete states: one with an empty draft value, one
with the spec scenario's draft {column: "age", operator: "gt", value: "30"}. -/
theorem addFilter_spec_witness :
    ((⟨initialQuery, "age", "contains", ""⟩ : TableState).filterColumn = "" ∨
      (⟨initialQuery, "age", "contains", ""⟩ : TableState).filterValue = "") ∧
    addFilter ⟨initialQuery, "age", "contains", ""⟩ =
      ⟨initialQuery, "age", "contains", ""⟩ ∧
    ((⟨initialQuery, "age", "gt", "30"⟩ : TableState).filterColumn ≠ "" ∧
      (⟨initialQuery, "age", "gt", "30"⟩ : TableState).filterValue ≠ "") ∧
    ((addFilter ⟨initialQuery, "age", "gt", "30"⟩).query.filters =
        initialQuery.filters ++ [{ column := "age", operator := "gt", value := "30" }] ∧
      (addFilter ⟨initialQuery, "age", "gt", "30"⟩).query.page = 1 ∧
      (addFilter ⟨initialQuery, "age", "gt", "30"⟩).filterColumn = "" ∧
      (addFilter ⟨initialQuery, "age", "gt", "30"⟩).filterValue = "" ∧
      (addFilter ⟨initialQuery, "age", "gt", "30"⟩).query.sort_by = initialQuery.sort_by ∧
      (addFilter ⟨initialQuery, "age", "gt", "30"⟩).query.sort_order = initialQuery.sort_order ∧
      (addFilter ⟨initialQuery, "age", "gt", "30"⟩).query.search = initialQuery.search ∧
      (addFilter ⟨initialQuery, "age", "gt", "30"⟩).query.limit = initialQuery.limit) :=
  ⟨by decide,
   (addFilter_spec ⟨initialQuery, "age", "contains", ""⟩).1 (by decide),
   by decide,
   (addFilter_spec ⟨initialQuery, "age", "gt", "30"⟩).2 (by decide)⟩

/-- C8: handlePageChange sets page to exactly n (no clamping, any integer)
and leaves limit, sort_by, sort_order, search and filters unchanged. -/
theorem handlePageChange_spec (q : Query) (n : Int) :
    (handlePageChange n q).page = n ∧
    (handlePageChange n q).limit = q.limit ∧
    (handlePageChange n q).sort_by = q.sort_by ∧
    (handlePageChange n q).sort_order = q.sort_order ∧
    (handlePageChange n q).search = q.search ∧
    (handlePageChange n q).filters = q.filters :=
  ⟨rfl, rfl, rfl, rfl, rfl, rfl⟩

/-- C10: DataTable's query is created with exactly the default
{page: 1, limit: 10, sort_by: "", sort_order: "asc", search: "", filters: []},
and the query of DatasetView's first loadData call equals this default. -/
theorem initial_query_defaults :
    initialQuery =
      { page := 1, limit := 10, sort_by := "", sort_order := "asc",
        search := "", filters := [] } ∧
    datasetViewFirstQuery = initialQuery :=
  ⟨rfl, rfl⟩

/-- The two persisted localStorage keys the app uses:
`access_token` and `user` (the latter stored as a JSON string). -/
structure SessionStore where
  access_token : Option String
  user : Option String
deriving DecidableEq, Repr

/-- Global browser-visible state the axios interceptors touch: the persisted
session store and `window.location.href` (None until a redirect happens). -/
structure GatewayState where
  store : SessionStore
  location : Option String
deriving DecidableEq, Repr

/-- The axios request interceptor: reads `access_token` from localStorage and,
when present, produces the `Authorization: Bearer <token>` header. -/
def requestAuthHeader (store : SessionStore) : Option String :=
  match store.access_token with
  | some token => some ("Bearer " ++ token)
  | none => none

/-- The axios response interceptor's error branch: on a 401 status it removes
both localStorage keys and sets `window.location.href = '/login'`; every other
status leaves the state alone (the error is re-raised either way). -/
def responseInterceptor (st : GatewayState) (status : Nat) : GatewayState :=
  if status = 401 then
    { store := { access_token := none, user := none }, location := some "/login" }
  else st

/-- C6: a 401 response clears both persisted session keys and redirects to
/login from any state (so independently of which call produced it); requests
from the cleared store carry no bearer header, requests with no stored token
carry none, and requests with a stored token carry `Bearer <token>`. -/
theorem gateway_401_spec (st : GatewayState) (token : String) (u : Option String) :
    (responseInterceptor st 401).store.access_token = none ∧
    (responseInterceptor st 401).store.user = none ∧
    (responseInterceptor st 401).location = some "/login" ∧
    requestAuthHeader (responseInterceptor st 401).store = none ∧
    requestAuthHeader { access_token := none, user := u } = none ∧
    requestAuthHeader { access_token := some token, user := u } =
      some ("Bearer " ++ token) :=
  ⟨rfl, rfl, rfl, rfl, rfl, rfl⟩

/-- The user profile object returned by the auth API; only `full_name` is
read by the login/register flows (for the welcome toast). -/
structure UserProfile where
  full_name : String
deriving DecidableEq, Repr

/-- The `{access_token, user}` payload of a successful /auth/login or
/auth/register response. -/
structure AuthSuccess where
  access_token : String
  user : UserProfile
deriving DecidableEq, Repr

/-- An axios error as the AuthContext reads it: the optional
`error.response?.data?.detail` message. -/
structure ApiError where
  detail : Option String
deriving DecidableEq, Repr

/-- The AuthProvider state the login/register flows touch: the persisted
session store (token plus serialized user, modelled as the profile), the
in-memory `user`, the `isLoading` flag, and the toast messages shown so far. -/
structure AuthState where
  store : SessionStore
  storedUser : Option UserProfile
  user : Option UserProfile
  isLoading : Bool
  toasts : List String
deriving DecidableEq, Repr

/-- AuthContext.login: on success writes `access_token` and `user` to
localStorage, sets the in-memory user and shows a welcome toast; on failure
shows `detail ?? 'Login failed'` and rethrows; `isLoading` ends false. -/
def login (st : AuthState) (resp : Except ApiError AuthSuccess) :
    AuthState × Except ApiError Unit :=
  match resp with
  | .ok r =>
      ({ st with
         store := { st.store with access_token := some r.access_token },
         storedUser := some r.user,
         user := some r.user,
         isLoading := false,
         toasts := st.toasts ++ ["Welcome back, " ++ r.user.full_name ++ "!"] },
       .ok ())
  | .error e =>
      ({ st with
         isLoading := false,
         toasts := st.toasts ++ [e.detail.getD "Login failed"] },
       .error e)

/-- AuthContext.register: same shape as login with its own messages. -/
def registerUser (st : AuthState) (resp : Except ApiError AuthSuccess) :
    AuthState × Except ApiError Unit :=
  match resp with
  | .ok r =>
      ({ st with
         store := { st.store with access_token := some r.access_token },
         storedUser := some r.user,
         user := some r.user,
         isLoading := false,
         toasts := st.toasts ++ ["Welcome to DataViz Pro, " ++ r.user.full_name ++ "!"] },
       .ok ())
  | .error e =>
      ({ st with
         isLoading := false,
         toasts := st.toasts ++ [e.detail.getD "Registration failed"] },
       .error e)

/-- C9: a failed login or register leaves the persisted token, the persisted
user and the in-memory user exactly as they were (so a null user stays null),
appends exactly one inline error message, and rethrows the error. -/
theorem auth_failure_atomic (st : AuthState) (e : ApiError) :
    (login st (.error e)).1.store = st.store ∧
    (login st (.error e)).1.storedUser = st.storedUser ∧
    (login st (.error e)).1.user = st.user ∧
    (login st (.error e)).1.toasts = st.toasts ++ [e.detail.getD "Login failed"] ∧
    (login st (.error e)).2 = .error e ∧
    (registerUser st (.error e)).1.store = st.store ∧
    (registerUser st (.error e)).1.storedUser = st.storedUser ∧
    (registerUser st (.error e)).1.user = st.user ∧
    (registerUser st (.error e)).1.toasts =
      st.toasts ++ [e.detail.getD "Registration failed"] ∧
    (registerUser st (.error e)).2 = .error e :=
  ⟨rfl, rfl, rfl, rfl, rfl, rfl, rfl, rfl, rfl, rfl⟩

/-- The pagination metadata of a page fetch response:
`{page, pages, total}` as read by DataTable.renderPagination. -/
structure Pagination where
  page : Int
  pages : Int
  total : Int
deriving DecidableEq, Repr

/-- A page fetch response as DatasetView stores it in `data`: the rows
(`data.data`, each row a column-name/cell list) plus pagination metadata. -/
structure PageResult where
  data : List (List (String × String))
  pagination : Pagination
deriving DecidableEq, Repr

/-- DatasetView.loadData's success continuation: `setData(result)` replaces
the displayed result with whatever response just resolved, with no check
against the query it was issued for. -/
def setData (current : Option PageResult) (result : PageResult) : Option PageResult :=
  some result

/-- The displayed result after a list of fetch responses resolve in the given
order, each running loadData's `setData(result)` continuation. -/
def settleResolutions (d : Option PageResult) (rs : List PageResult) : Option PageResult :=
  rs.foldl setData d

/-- The response of an older fetch A (page 1 of 3). -/
def pageResultA : PageResult :=
  { data := [[("name", "alice")]], pagination := { page := 1, pages := 3, total := 25 } }

/-- The response of a newer fetch B (page 2 of 3). -/
def pageResultB : PageResult :=
  { data := [[("name", "bob")]], pagination := { page := 2, pages := 3, total := 25 } }

/-- Counterexample to C3: fetches issued in order A then B, with B resolving
first, end with A's response displayed, not B's — loadData has no staleness
guard, so the last-resolved response wins. -/
theorem display_staleness_cex :
    settleResolutions none [pageResultB, pageResultA] ≠ some pageResultB := by
  decide

/-- C3 amended: after any nonempty list of responses resolves, the display
shows the last-resolved response (regardless of issue order). -/
theorem display_last_resolved (d : Option PageResult) (rs : List PageResult)
    (h : rs ≠ []) : settleResolutions d rs = rs.getLast? := by
  induction rs generalizing d with
  | nil => exact absurd rfl h
  | cons r rs ih =>
    cases rs with
    | nil => rfl
    | cons r2 rs2 =>
      have step : settleResolutions d (r :: r2 :: rs2) =
          settleResolutions (some r) (r2 :: rs2) := rfl
      rw [step, ih (some r) (by simp), List.getLast?_cons_cons]

/-- Witness for C3's amended statement at the counterexample's resolution
order: the display ends on A (resolved last), not B (issued last). -/
theorem display_last_resolved_witness :
    ([pageResultB, pageResultA] : List PageResult) ≠ [] ∧
    settleResolutions none [pageResultB, pageResultA] =
      ([pageResultB, pageResultA] : List PageResult).getLast? :=
  ⟨by decide, display_last_resolved none [pageResultB, pageResultA] (by decide)⟩

/-- The ChartConfig state of ChartContainer:
`{chart_type, x_axis, y_axis, group_by, aggregate}`. -/
structure ChartConfig where
  chart_type : String
  x_axis : String
  y_axis : String
  group_by : String
  aggregate : String
deriving DecidableEq, Repr

/-- ChartContainer.handleConfigChange: the JS computed-key spread
`{...prev, [key]: value}`, written out for the five ChartConfig keys the
component passes; any other key leaves the modelled fields unchanged. -/
def handleConfigChange (key value : String) (prev : ChartConfig) : ChartConfig :=
  if key = "chart_type" then { prev with chart_type := value }
  else if key = "x_axis" then { prev with x_axis := value }
  else if key = "y_axis" then { prev with y_axis := value }
  else if key = "group_by" then { prev with group_by := value }
  else if key = "aggregate" then { prev with aggregate := value }
  else prev

/-- The regenerate calls ChartContainer's effect issues for a config value:
the effect body runs `generateChart()` only when `chartConfig.x_axis` is
truthy (a non-empty string), so one call with the current config, else none. -/
def chartEffectCalls (cfg : ChartConfig) : List ChartConfig :=
  if cfg.x_axis ≠ "" then [cfg] else []

/-- The initial chart config of a dataset whose first column is "city" and
first numeric column is "pop". -/
def chartConfigCex : ChartConfig :=
  { chart_type := "bar", x_axis := "city", y_axis := "pop",
    group_by := "", aggregate := "count" }

/-- Counterexample to C7: changing x_axis to the empty "Select column" option
issues no regenerate call at all, not exactly one. -/
theorem chart_regenerate_cex :
    chartEffectCalls (handleConfigChange "x_axis" "" chartConfigCex) ≠
      [handleConfigChange "x_axis" "" chartConfigCex] := by
  decide

/-- C7 amended: a config change (or dataset change, which reruns the same
effect) issues exactly one immediate regenerate call carrying the updated
config when its x_axis is non-empty, and no call when x_axis is empty;
handleConfigChange replaces exactly the named field. -/
theorem chart_config_spec (cfg : ChartConfig) (key value : String) :
    ((handleConfigChange key value cfg).x_axis ≠ "" →
      chartEffectCalls (handleConfigChange key value cfg) =
        [handleConfigChange key value cfg]) ∧
    ((handleConfigChange key value cfg).x_axis = "" →
      chartEffectCalls (handleConfigChange key value cfg) = []) ∧
    handleConfigChange "chart_type" value cfg = { cfg with chart_type := value } ∧
    handleConfigChange "x_axis" value cfg = { cfg with x_axis := value } ∧
    handleConfigChange "y_axis" value cfg = { cfg with y_axis := value } ∧
    handleConfigChange "group_by" value cfg = { cfg with group_by := value } ∧
    handleConfigChange "aggregate" value cfg = { cfg with aggregate := value } := by
  refine ⟨?_, ?_, ?_, ?_, ?_, ?_, ?_⟩
  · intro h
    simp [chartEffectCalls, h]
  · intro h
    simp [chartEffectCalls, h]
  · simp [handleConfigChange]
  · simp [handleConfigChange]
  · simp [handleConfigChange]
  · simp [handleConfigChange]
  · simp [handleConfigChange]

/-- Witness for C7's amended statement: after clearing x_axis on the concrete
config no regenerate call is issued, and a chart_type change replaces only
chart_type. -/
theorem chart_config_spec_witness :
    (handleConfigChange "x_axis" "" chartConfigCex).x_axis = "" ∧
    chartEffectCalls (handleConfigChange "x_axis" "" chartConfigCex) = [] ∧
    handleConfigChange "chart_type" "pie" chartConfigCex =
      { chartConfigCex with chart_type := "pie" } :=
  ⟨by decide,
   (chart_config_spec chartConfigCex "x_axis" "").2.1 (by decide),
   (chart_config_spec chartConfigCex "chart_type" "pie").2.2.1⟩

/-- An event the DataTable component reacts to: a query mutation (any of the
setQuery updaters, as a function on Query) or the component's unmount. -/
inductive TEvent where
  | mutate (f : Query → Query)
  | unmount

/-- State of the debounced synchronization loop: the current query, the
pending debounce timer (absolute deadline and the query snapshot its
`onQueryChange(query)` callback closed over), the fetches invoked so far
(with their invocation time and snapshot), and whether the component is
still mounted. -/
structure SyncState where
  query : Query
  pending : Option (Nat × Query)
  fetches : List (Nat × Query)
  mounted : Bool

/-- Fire the pending timer if its deadline has passed by time t (a timer not
yet canceled fires once its 300-unit delay elapses). -/
def fireDue (s : SyncState) (t : Nat) : SyncState :=
  match s.pending with
  | some (d, q) =>
      if d ≤ t then { s with pending := none, fetches := s.fetches ++ [(d, q)] }
      else s
  | none => s

/-- One reaction of the loop at time t. While mounted: a mutation first lets
any already-elapsed timer fire, then applies the update and (re)starts the
debounce effect — the cleanup clears the previous timeout and a new 300-unit
timeout is set whose callback carries the new query; unmount runs the effect
cleanup (`clearTimeout`) so the pending timer is discarded. After unmount no
effect runs, so events are ignored. -/
def step (s : SyncState) (t : Nat) (e : TEvent) : SyncState :=
  if s.mounted then
    match e with
    | .mutate f =>
        let s2 := fireDue s t
        { s2 with query := f s2.query, pending := some (t + 300, f s2.query) }
    | .unmount =>
        { fireDue s t with pending := none, mounted := false }
  else s

/-- Run a time-ordered list of timestamped events. -/
def runEvents (s : SyncState) : List (Nat × TEvent) → SyncState
  | [] => s
  | (t, e) :: rest => runEvents (step s t e) rest

/-- Let a still-pending timer fire once no further event precedes its
deadline (quiescence at the end of a trace). -/
def flushPending (s : SyncState) : SyncState :=
  match s.pending with
  | some (d, q) => { s with pending := none, fetches := s.fetches ++ [(d, q)] }
  | none => s

/-- Wrap a timestamped mutation as a timestamped event. -/
def mkMutate (p : Nat × (Query → Query)) : Nat × TEvent :=
  (p.1, TEvent.mutate p.2)

/-- After unmount the loop reacts to nothing. -/
theorem runEvents_unmounted (s : SyncState) (h : s.mounted = false) :
    ∀ evs : List (Nat × TEvent), runEvents s evs = s := by
  intro evs
  induction evs with
  | nil => rfl
  | cons p rest ih =>
    have hstep : step s p.1 p.2 = s := by
      unfold step
      rw [h]
      simp
    show runEvents (step s p.1 p.2) rest = s
    rw [hstep, ih]

/-- Running a concatenation of traces runs them in sequence. -/
theorem runEvents_append (s : SyncState) (l1 l2 : List (Nat × TEvent)) :
    runEvents s (l1 ++ l2) = runEvents (runEvents s l1) l2 := by
  induction l1 generalizing s with
  | nil => rfl
  | cons p rest ih =>
    show runEvents (step s p.1 p.2) (rest ++ l2) = _
    rw [ih]
    rfl

/-- Core burst lemma: over a nonempty run of mutations in which each event
arrives less than 300 units after its predecessor, and whose first event
arrives before any pending deadline, no timer fires; the run ends with the
folded query and a single pending timer at (last time + 300) holding the
final snapshot. -/
theorem runEvents_burst (rest : List (Nat × (Query → Query))) :
    ∀ (t : Nat) (f : Query → Query) (q0 : Query) (fs : List (Nat × Query))
      (pend : Option (Nat × Query)),
    (∀ d qp, pend = some (d, qp) → t < d) →
    List.Chain' (fun a b => b.1 < a.1 + 300) ((t, f) :: rest) →
    runEvents ⟨q0, pend, fs, true⟩ (((t, f) :: rest).map mkMutate) =
      ⟨List.foldl (fun q p => p.2 q) q0 ((t, f) :: rest),
       some (List.foldl (fun x p => p.1) t rest + 300,
             List.foldl (fun q p => p.2 q) q0 ((t, f) :: rest)),
       fs, true⟩ := by
  induction rest with
  | nil =>
    intro t f q0 fs pend hpend _
    have hfire : fireDue ⟨q0, pend, fs, true⟩ t = ⟨q0, pend, fs, true⟩ := by
      cases pend with
      | none => rfl
      | some dq =>
        obtain ⟨d, qp⟩ := dq
        have hlt : ¬ d ≤ t := Nat.not_le.mpr (hpend d qp rfl)
        unfold fireDue
        simp [hlt]
    show step ⟨q0, pend, fs, true⟩ t (TEvent.mutate f) = _
    unfold step
    rw [if_pos rfl]
    simp only [hfire]
    rfl
  | cons p rest ih =>
    intro t f q0 fs pend hpend hchain
    obtain ⟨t2, f2⟩ := p
    have hgap : t2 < t + 300 := (List.chain'_cons.mp hchain).1
    have hchain2 : List.Chain' (fun a b => b.1 < a.1 + 300) ((t2, f2) :: rest) :=
      (List.chain'_cons.mp hchain).2
    have hfire : fireDue ⟨q0, pend, fs, true⟩ t = ⟨q0, pend, fs, true⟩ := by
      cases pend with
      | none => rfl
      | some dq =>
        obtain ⟨d, qp⟩ := dq
        have hlt : ¬ d ≤ t := Nat.not_le.mpr (hpend d qp rfl)
        unfold fireDue
        simp [hlt]
    have hstep : step ⟨q0, pend, fs, true⟩ t (TEvent.mutate f) =
        ⟨f q0, some (t + 300, f q0), fs, true⟩ := by
      unfold step
      rw [if_pos rfl]
      simp only [hfire]
    show runEvents (step ⟨q0, pend, fs, true⟩ t (TEvent.mutate f))
        (((t2, f2) :: rest).map mkMutate) = _
    rw [hstep]
    exact ih t2 f2 (f q0) fs (some (t + 300, f q0))
      (fun d qp hp => by
        injection hp with hp
        injection hp with hp1 hp2
        omega)
      hchain2

/-- C2: for a burst of k >= 1 mutations, each arriving less than 300 units
after its predecessor, exactly one fetch is invoked once the burst settles,
carrying the snapshot produced by the last mutation (no fetch carries an
intermediate snapshot); and if the component unmounts before the pending
deadline, the timer is canceled: no fetch is ever invoked and later events
are inert. -/
theorem debounce_burst (t : Nat) (f : Query → Query)
    (rest : List (Nat × (Query → Query))) (q0 : Query)
    (hchain : List.Chain' (fun a b => b.1 < a.1 + 300) ((t, f) :: rest)) :
    (flushPending (runEvents ⟨q0, none, [], true⟩
        (((t, f) :: rest).map mkMutate))).fetches =
      [(List.foldl (fun _ p => p.1) t rest + 300,
        List.foldl (fun q p => p.2 q) q0 ((t, f) :: rest))] ∧
    ∀ u : Nat, u < List.foldl (fun _ p => p.1) t rest + 300 →
      (runEvents ⟨q0, none, [], true⟩
          (((t, f) :: rest).map mkMutate ++ [(u, TEvent.unmount)])).fetches = [] ∧
      (runEvents ⟨q0, none, [], true⟩
          (((t, f) :: rest).map mkMutate ++ [(u, TEvent.unmount)])).pending = none ∧
      ∀ evs2 : List (Nat × TEvent),
        runEvents (runEvents ⟨q0, none, [], true⟩
            (((t, f) :: rest).map mkMutate ++ [(u, TEvent.unmount)])) evs2 =
          runEvents ⟨q0, none, [], true⟩
            (((t, f) :: rest).map mkMutate ++ [(u, TEvent.unmount)]) := by
  have hrun := runEvents_burst rest t f q0 [] none
    (fun d qp h => by cases h) hchain
  constructor
  · rw [hrun]
    rfl
  · intro u hu
    have hnofire : ¬ (List.foldl (fun _ p => p.1) t rest + 300 ≤ u) :=
      Nat.not_le.mpr hu
    have hafter : runEvents ⟨q0, none, [], true⟩
        (((t, f) :: rest).map mkMutate ++ [(u, TEvent.unmount)]) =
        ⟨List.foldl (fun q p => p.2 q) q0 ((t, f) :: rest), none, [], false⟩ := by
      rw [runEvents_append, hrun]
      unfold runEvents step fireDue
      simp [hnofire]
      rfl
    refine ⟨?_, ?_, ?_⟩
    · rw [hafter]
    · rw [hafter]
    · intro evs2
      rw [hafter]
      exact runEvents_unmounted _ rfl evs2

/-- Witness for C2: a 2-mutation burst at times 0 and 100 from the initial
query yields exactly the fetch at time 400 with the final snapshot, and an
unmount at time 250 suppresses it. -/
theorem debounce_burst_witness :
    (flushPending (runEvents ⟨initialQuery, none, [], true⟩
        (((0, handleSearch "ab") :: [(100, handleSort "name")]).map mkMutate))).fetches =
      [(List.foldl (fun _ p => p.1) 0 [(100, handleSort "name")] + 300,
        List.foldl (fun q p => p.2 q) initialQuery
          ((0, handleSearch "ab") :: [(100, handleSort "name")]))] ∧
    ((runEvents ⟨initialQuery, none, [], true⟩
        (((0, handleSearch "ab") :: [(100, handleSort "name")]).map mkMutate ++
          [(250, TEvent.unmount)])).fetches = [] ∧
     (runEvents ⟨initialQuery, none, [], true⟩
        (((0, handleSearch "ab") :: [(100, handleSort "name")]).map mkMutate ++
          [(250, TEvent.unmount)])).pending = none ∧
     ∀ evs2 : List (Nat × TEvent),
       runEvents (runEvents ⟨initialQuery, none, [], true⟩
           (((0, handleSearch "ab") :: [(100, handleSort "name")]).map mkMutate ++
             [(250, TEvent.unmount)])) evs2 =
         runEvents ⟨initialQuery, none, [], true⟩
           (((0, handleSearch "ab") :: [(100, handleSort "name")]).map mkMutate ++
             [(250, TEvent.unmount)])) := by
  have h := debounce_burst 0 (handleSearch "ab") [(100, handleSort "name")]
    initialQuery (List.Chain.cons (by norm_num) List.Chain.nil)
  exact ⟨h.1, h.2 250 (by norm_num [List.foldl])⟩
